import Mathlib

/-!
Shallow embedding of `src/ecommerce-frontend/src/App.js` (the single React
component of the repository).  Each `useState` cell of the component becomes a
field of `AppState`; every async handler becomes a pure state transformer
parameterized by the outcome of the network request(s) it awaits (the
transport is out of scope, so outcomes are inputs).  Handlers additionally
return the list of network requests they issue; the cache probe
(`testRedisCache`) returns a full event trace so that ordering properties can
be stated.
-/

/-- A JavaScript string-or-undefined value.  `responseMessage` can be set to
`error.response.data.message`, which is `undefined` when the response body
carries no `message` field. -/
inductive JsStr where
  | str (s : String)
  | undef
deriving Repr, DecidableEq

/-- A product as the backend returns it (`{id, name, price}`).  `price` is
kept as its display text: no claim inspects numeric semantics of prices. -/
structure Product where
  id : Nat
  name : String
  price : String
deriving Repr, DecidableEq

/-- Body of a successful `GET /api/products` response:
`{ products, cacheStatus }`. -/
structure FetchResp where
  products : List Product
  cacheStatus : String
deriving Repr, DecidableEq

/-- The `data` of an axios error response; the `message` field may be absent
(`undefined`). -/
structure ErrorData where
  message : Option String
deriving Repr, DecidableEq

/-- An axios error response object. -/
structure ErrorResponse where
  data : ErrorData
deriving Repr, DecidableEq

/-- An axios error: it always has a `.message`; `.response` is present
exactly when the server answered (absent on transport failure). -/
structure AxiosError where
  message : String
  response : Option ErrorResponse
deriving Repr, DecidableEq

/-- The `cacheTestResults` state cell. -/
structure CacheTestResults where
  firstFetchStatus : String
  secondFetchStatus : String
  overallMessage : String
deriving Repr, DecidableEq

/-- All `useState` cells of the `App` component. -/
structure AppState where
  products : List Product
  loading : Bool
  error : Option String
  productName : String
  productPrice : String
  selectedProductId : Option Nat
  responseMessage : JsStr
  queueMessages : List String
  cacheTestResults : CacheTestResults
deriving Repr, DecidableEq

/-- The initial values passed to `useState`. -/
def initialState : AppState :=
  { products := [], loading := true, error := none, productName := "",
    productPrice := "", selectedProductId := none, responseMessage := .str "",
    queueMessages := [],
    cacheTestResults := { firstFetchStatus := "", secondFetchStatus := "", overallMessage := "" } }

/-- The network requests the component can issue (method and path shape). -/
inductive NetReq where
  | getProducts
  | postProduct (name : String) (price : String)
  | putProduct (id : Nat) (name : String) (price : String)
  | deleteProduct (id : Nat)
  | getQueue (queueName : String)
  | clearCache
deriving Repr, DecidableEq

/-- Whether an `Except` outcome is a success. -/
def exceptOk {α : Type} : Except AxiosError α → Bool
  | .ok _ => true
  | .error _ => false

/-- `fetchProducts` (App.js 26-39).  On success it replaces the product list,
clears `loading` and returns the response's `cacheStatus`; in the catch it
records an error status, clears `loading` and returns `null` (modelled as
`none`).  It never throws to its caller. -/
def fetchProducts (res : Except AxiosError FetchResp) (s : AppState) :
    AppState × Option String :=
  match res with
  | .ok r => ({ s with products := r.products, loading := false }, some r.cacheStatus)
  | .error e =>
      ({ s with
          error := some ("Error fetching products: " ++ e.message ++ ". Please try again later."),
          loading := false }, none)

/-- The JS expression `error.response ? error.response.data.message :
fallback`: the branch condition is the presence of the response, not of the
`message` field, so a response without that field yields `undefined`. -/
def errResponseMessage (e : AxiosError) (fallback : String) : JsStr :=
  match e.response with
  | some r =>
      match r.data.message with
      | some m => .str m
      | none => .undef
  | none => .str fallback

/-- The request `handleAddOrUpdateProduct` issues: PUT to `/{id}` when a
product is selected, POST otherwise.  The body carries `name` and
`parseFloat(productPrice)`; the float parse is kept as the raw field text
since no claim inspects the transmitted number. -/
def addOrUpdateReq (s : AppState) : NetReq :=
  match s.selectedProductId with
  | some id => .putProduct id s.productName s.productPrice
  | none => .postProduct s.productName s.productPrice

/-- `handleAddOrUpdateProduct` (App.js 41-67).  On success: set the response
message, clear the two form fields and the selection, then refresh via
`fetchProducts`.  In the catch: only set the response message from the error
response. -/
def handleAddOrUpdateProduct (res : Except AxiosError Product)
    (fetchRes : Except AxiosError FetchResp) (s : AppState) :
    AppState × List NetReq :=
  match res with
  | .ok p =>
      let s1 := { s with
        responseMessage := .str ("Product "
          ++ (if s.selectedProductId.isSome then "updated" else "added")
          ++ ": " ++ p.name ++ " - $" ++ p.price),
        productName := "", productPrice := "", selectedProductId := none }
      ((fetchProducts fetchRes s1).1, [addOrUpdateReq s, .getProducts])
  | .error e =>
      ({ s with responseMessage := errResponseMessage e "Failed to perform operation" },
       [addOrUpdateReq s])

/-- `handleDeleteProduct` (App.js 69-81).  On success: set the message and
refresh via `fetchProducts`.  In the catch: only set the response message. -/
def handleDeleteProduct (id : Nat) (res : Except AxiosError Unit)
    (fetchRes : Except AxiosError FetchResp) (s : AppState) :
    AppState × List NetReq :=
  match res with
  | .ok _ =>
      ((fetchProducts fetchRes { s with responseMessage := .str "Product deleted successfully" }).1,
       [.deleteProduct id, .getProducts])
  | .error e =>
      ({ s with responseMessage := errResponseMessage e "Failed to delete product" },
       [.deleteProduct id])

/-- `handleSelectProduct` (App.js 83-87): snapshot the chosen product into
the form fields and select its id. -/
def handleSelectProduct (p : Product) (s : AppState) : AppState :=
  { s with selectedProductId := some p.id, productName := p.name, productPrice := p.price }

/-- `fetchQueueMessages` (App.js 90-98): replace the batch with the response
body; in the catch, replace it with the empty list. -/
def fetchQueueMessages (res : Except AxiosError (List String)) (s : AppState) :
    AppState × List NetReq :=
  match res with
  | .ok msgs => ({ s with queueMessages := msgs }, [.getQueue "product_queue"])
  | .error _ => ({ s with queueMessages := [] }, [.getQueue "product_queue"])

/-- `clearQueueMessages` (App.js 100-103): purely local, no request. -/
def clearQueueMessages (s : AppState) : AppState × List NetReq :=
  ({ s with queueMessages := [], responseMessage := .str "Queue messages cleared" }, [])

/-- `clearRedisCache` (App.js 157-166): the standalone cache-clear button. -/
def clearRedisCache (res : Except AxiosError Unit) (s : AppState) :
    AppState × List NetReq :=
  match res with
  | .ok _ =>
      ({ s with cacheTestResults :=
          { s.cacheTestResults with overallMessage := "Redis cache cleared successfully" } },
       [.clearCache])
  | .error _ =>
      ({ s with cacheTestResults :=
          { s.cacheTestResults with overallMessage := "Failed to clear Redis cache" } },
       [.clearCache])

/-- How a JS template literal renders the value `fetchProducts` returned:
`null` prints as `"null"`, a string prints as itself. -/
def showStatus : Option String → String
  | some s => s
  | none => "null"

/-- The spec's `CacheProbePhase` state machine (§3); the embedding labels
each terminal outcome of a probe run with the phase it corresponds to. -/
inductive ProbePhase where
  | idle
  | clearing
  | firstFetch
  | waiting
  | secondFetch
  | done
  | failed
deriving Repr, DecidableEq

/-- Events observable during a probe run: a request being issued, its await
completing, the `setTimeout` being set (waiting phase starts), and its delay
elapsing (the callback firing). -/
inductive Ev where
  | req (r : NetReq)
  | reqDone (r : NetReq) (ok : Bool)
  | timerSet (ms : Nat)
  | delayElapsed (ms : Nat)
deriving Repr, DecidableEq

/-- The outcomes of the three requests a full probe run can issue. -/
structure ProbeOracle where
  clearResult : Except AxiosError Unit
  firstFetch : Except AxiosError FetchResp
  secondFetch : Except AxiosError FetchResp

/-- Result of a probe run: the state after the run (the `setTimeout`
callback included), the terminal phase, and the event trace in temporal
order. -/
structure ProbeRun where
  state : AppState
  finalPhase : ProbePhase
  trace : List Ev

/-- `testRedisCache` (App.js 105-155).  The `try` block awaits the
cache-clear request; only that await can throw, since `fetchProducts`
catches its own failures and returns `null`.  On a clear failure the catch
sets the generic overall message and nothing further runs (`failed`).
Otherwise the run proceeds through both fetches — the second inside a
`setTimeout(…, 2000)` callback — and always reaches the completion message
(`done`). -/
def testRedisCache (o : ProbeOracle) (s : AppState) : ProbeRun :=
  let s0 := { s with cacheTestResults :=
    { firstFetchStatus := "", secondFetchStatus := "", overallMessage := "Clearing Redis cache..." } }
  match o.clearResult with
  | .error _ =>
      { state := { s0 with cacheTestResults :=
          { s0.cacheTestResults with overallMessage := "Error testing Redis cache" } },
        finalPhase := .failed,
        trace := [.req .clearCache, .reqDone .clearCache false] }
  | .ok _ =>
      let s1 := { s0 with cacheTestResults :=
        { s0.cacheTestResults with overallMessage := "Redis cache cleared. Testing cache..." } }
      let s2 := { s1 with cacheTestResults :=
        { s1.cacheTestResults with firstFetchStatus := "Fetching products from database (cache miss)..." } }
      let fp1 := fetchProducts o.firstFetch s2
      let s3 := { fp1.1 with cacheTestResults :=
        { fp1.1.cacheTestResults with firstFetchStatus := "First Fetch: Cache " ++ showStatus fp1.2 } }
      let s4 := { s3 with cacheTestResults :=
        { s3.cacheTestResults with secondFetchStatus := "Fetching products again (cache hit)..." } }
      let fp2 := fetchProducts o.secondFetch s4
      let s5 := { fp2.1 with cacheTestResults :=
        { fp2.1.cacheTestResults with
            secondFetchStatus := "Second Fetch: Cache " ++ showStatus fp2.2,
            overallMessage := "Cache test completed. Check the statuses above." } }
      { state := s5,
        finalPhase := .done,
        trace := [.req .clearCache, .reqDone .clearCache true,
                  .req .getProducts, .reqDone .getProducts (exceptOk o.firstFetch),
                  .timerSet 2000, .delayElapsed 2000,
                  .req .getProducts, .reqDone .getProducts (exceptOk o.secondFetch)] }

/-- What the component renders (App.js 169-246): the loading screen, the
bare error message, or the interactive main UI (list, form, queue and cache
sections with their buttons). -/
inductive RenderView where
  | loadingScreen
  | errorScreen (msg : String)
  | mainUI
deriving Repr, DecidableEq

/-- The component body: `if (loading) …; if (error) …; return <main UI>`. -/
def render (s : AppState) : RenderView :=
  if s.loading then .loadingScreen
  else
    match s.error with
    | some e => .errorScreen e
    | none => .mainUI

/-- Only the main UI has any control the user can operate. -/
def isInteractive : RenderView → Bool
  | .mainUI => true
  | _ => false

/-- Is this event a catalog-fetch request being issued? -/
def isFetchReq : Ev → Bool
  | .req .getProducts => true
  | _ => false

/-- Is this event a catalog fetch completing (success or failure)? -/
def isFetchDone : Ev → Bool
  | .reqDone .getProducts _ => true
  | _ => false

/-- Is this event the cache-clear request completing? -/
def isClearDone : Ev → Bool
  | .reqDone .clearCache _ => true
  | _ => false

/-- Is this event the 2000-unit timer being set (waiting starts)? -/
def isTimerSet2000 : Ev → Bool
  | .timerSet 2000 => true
  | _ => false

/-- Is this event the 2000-unit delay elapsing? -/
def isDelay2000 : Ev → Bool
  | .delayElapsed 2000 => true
  | _ => false

/-- Worker for `allPreceded`: `seen` records whether a `p`-event has already
occurred. -/
def allPrecededGo (p q : Ev → Bool) : Bool → List Ev → Bool
  | _, [] => true
  | seen, e :: rest => (!(q e) || seen) && allPrecededGo p q (seen || p e) rest

/-- Every event satisfying `q` occurs strictly after some event satisfying
`p`. -/
def allPreceded (p q : Ev → Bool) (tr : List Ev) : Bool :=
  allPrecededGo p q false tr

/-- Worker for `secondFetchAfter`: `n` counts the catalog-fetch requests
already seen, `seen` whether a `p`-event has occurred. -/
def secondFetchAfterGo (p : Ev → Bool) : Nat → Bool → List Ev → Bool
  | _, _, [] => true
  | n, seen, e :: rest =>
      (!(isFetchReq e && n == 1) || seen) &&
      secondFetchAfterGo p (if isFetchReq e then n + 1 else n) (seen || p e) rest

/-- The second catalog-fetch request of the trace (when there is one) occurs
strictly after some event satisfying `p`. -/
def secondFetchAfter (p : Ev → Bool) (tr : List Ev) : Bool :=
  secondFetchAfterGo p 0 false tr

/-! ## Claim theorems -/

/-- C3: after every successful create or update submission, whatever mode the
editor started in, the editor is back in create mode (no selected id) with
empty name and price fields — and this survives the refresh `fetchProducts`
issues afterwards, whatever its outcome. -/
theorem c3_mode_reset (s : AppState) (p : Product)
    (fetchRes : Except AxiosError FetchResp) :
    (handleAddOrUpdateProduct (.ok p) fetchRes s).1.selectedProductId = none ∧
    (handleAddOrUpdateProduct (.ok p) fetchRes s).1.productName = "" ∧
    (handleAddOrUpdateProduct (.ok p) fetchRes s).1.productPrice = "" := by
  cases fetchRes <;> simp [handleAddOrUpdateProduct, fetchProducts]

/-- C8: when a create or update submission fails, the editor's name, price
and selection are exactly as before, and in fact the whole state is unchanged
except for the response message. -/
theorem c8_failed_submit_frame (s : AppState) (e : AxiosError)
    (fetchRes : Except AxiosError FetchResp) :
    (handleAddOrUpdateProduct (.error e) fetchRes s).1.productName = s.productName ∧
    (handleAddOrUpdateProduct (.error e) fetchRes s).1.productPrice = s.productPrice ∧
    (handleAddOrUpdateProduct (.error e) fetchRes s).1.selectedProductId = s.selectedProductId ∧
    { (handleAddOrUpdateProduct (.error e) fetchRes s).1 with
        responseMessage := s.responseMessage } = s := by
  simp [handleAddOrUpdateProduct]

/-- C9: deleting the product whose id is currently selected for edit leaves
the editor untouched, for a successful or a failed delete: the selection
still references the (now nonexistent) id and the fields keep their text. -/
theorem c9_delete_keeps_editor (s : AppState) (id : Nat)
    (res : Except AxiosError Unit) (fetchRes : Except AxiosError FetchResp)
    (h : s.selectedProductId = some id) :
    (handleDeleteProduct id res fetchRes s).1.selectedProductId = some id ∧
    (handleDeleteProduct id res fetchRes s).1.productName = s.productName ∧
    (handleDeleteProduct id res fetchRes s).1.productPrice = s.productPrice := by
  cases res <;> cases fetchRes <;>
    simp [handleDeleteProduct, fetchProducts] <;> exact h

/-- A state in which product id 1 is selected for edit. -/
def editingState : AppState :=
  { initialState with
    selectedProductId := some 1,
    productName := "Widget", productPrice := "9.99" }

/-- C9 witness: the editor survives deleting the selected product id 1. -/
theorem c9_delete_keeps_editor_witness :
    (handleDeleteProduct 1 (.ok ()) (.ok { products := [], cacheStatus := "miss" })
        editingState).1.selectedProductId = some 1 ∧
    (handleDeleteProduct 1 (.ok ()) (.ok { products := [], cacheStatus := "miss" })
        editingState).1.productName = editingState.productName ∧
    (handleDeleteProduct 1 (.ok ()) (.ok { products := [], cacheStatus := "miss" })
        editingState).1.productPrice = editingState.productPrice :=
  c9_delete_keeps_editor editingState 1 (.ok ())
    (.ok { products := [], cacheStatus := "miss" }) rfl

/-- C7: queue-clear issues no request, empties the local batch, sets the
confirmation message, and a subsequent queue-fetch returns exactly what it
would have returned without the clear (its result depends only on the
server's response). -/
theorem c7_queue_clear_local (s : AppState) (res : Except AxiosError (List String)) :
    (clearQueueMessages s).2 = [] ∧
    (clearQueueMessages s).1.queueMessages = [] ∧
    (clearQueueMessages s).1.responseMessage = JsStr.str "Queue messages cleared" ∧
    (fetchQueueMessages res (clearQueueMessages s).1).1.queueMessages =
      (fetchQueueMessages res s).1.queueMessages := by
  cases res <;> simp [clearQueueMessages, fetchQueueMessages]

/-- C10: a failed catalog fetch returns `null` (no `cacheStatus` tag at all,
so in particular nothing from {hit, miss, unknown}), and the probe embeds
that `null` verbatim into its phase status strings. -/
theorem c10_null_in_status (s : AppState) (e : AxiosError)
    (other : Except AxiosError FetchResp) :
    ((fetchProducts (.error e) s).2).isSome = false ∧
    showStatus (fetchProducts (.error e) s).2 = "null" ∧
    (testRedisCache { clearResult := .ok (), firstFetch := .error e, secondFetch := other }
        s).state.cacheTestResults.firstFetchStatus = "First Fetch: Cache null" ∧
    (testRedisCache { clearResult := .ok (), firstFetch := other, secondFetch := .error e }
        s).state.cacheTestResults.secondFetchStatus = "Second Fetch: Cache null" := by
  cases other <;> simp [testRedisCache, fetchProducts, showStatus]

/-- C4: in every probe run, whatever the request outcomes, the cache-clear
request completes before any catalog fetch is issued; the waiting timer is
set only after the first fetch has completed (with success or failure); and
the second catalog fetch is issued only after the fixed 2000-unit delay has
elapsed. -/
theorem c4_probe_ordering (o : ProbeOracle) (s : AppState) :
    allPreceded isClearDone isFetchReq (testRedisCache o s).trace = true ∧
    allPreceded isFetchDone isTimerSet2000 (testRedisCache o s).trace = true ∧
    secondFetchAfter isDelay2000 (testRedisCache o s).trace = true := by
  obtain ⟨cr, f1, f2⟩ := o
  cases cr <;> exact ⟨rfl, rfl, rfl⟩

/-- C5: when the cache-clear request at the start of a probe run fails, the
run ends in the failed phase with the generic message and no catalog fetch
is ever issued. -/
theorem c5_clear_fail_short_circuit (o : ProbeOracle) (s : AppState)
    (h : exceptOk o.clearResult = false) :
    (testRedisCache o s).finalPhase = ProbePhase.failed ∧
    (testRedisCache o s).state.cacheTestResults.overallMessage = "Error testing Redis cache" ∧
    (testRedisCache o s).trace.countP (fun e => isFetchReq e) = 0 := by
  obtain ⟨cr, f1, f2⟩ := o
  cases cr <;> simp_all [testRedisCache, exceptOk, isFetchReq]

/-- A probe run whose cache-clear request fails with a transport error. -/
def failClearOracle : ProbeOracle :=
  { clearResult := .error { message := "Network Error", response := none },
    firstFetch := .ok { products := [], cacheStatus := "miss" },
    secondFetch := .ok { products := [], cacheStatus := "hit" } }

/-- C5 witness: a concrete probe run with a failed cache-clear. -/
theorem c5_clear_fail_short_circuit_witness :
    (testRedisCache failClearOracle initialState).finalPhase = ProbePhase.failed ∧
    (testRedisCache failClearOracle initialState).state.cacheTestResults.overallMessage =
      "Error testing Redis cache" ∧
    (testRedisCache failClearOracle initialState).trace.countP (fun e => isFetchReq e) = 0 :=
  c5_clear_fail_short_circuit failClearOracle initialState rfl

/-- A probe run whose cache-clear succeeds but whose first catalog fetch
fails with a transport error. -/
def firstFetchFailOracle : ProbeOracle :=
  { clearResult := .ok (),
    firstFetch := .error { message := "Network Error", response := none },
    secondFetch := .ok { products := [], cacheStatus := "hit" } }

/-- C1 counterexample: when the first catalog fetch of a probe run fails,
the probe does not transition to the failed phase and does not abandon the
remaining steps: it still issues the second fetch and finishes in the done
phase with the completion message. -/
theorem c1_counterexample :
    (testRedisCache firstFetchFailOracle initialState).finalPhase = ProbePhase.done ∧
    (testRedisCache firstFetchFailOracle initialState).state.cacheTestResults.overallMessage =
      "Cache test completed. Check the statuses above." ∧
    (testRedisCache firstFetchFailOracle initialState).trace.countP (fun e => isFetchReq e) = 2 :=
  ⟨rfl, rfl, rfl⟩

/-- C1 (amended): the probe transitions to failed — with the generic message
and no fetch issued — exactly when the cache-clear request fails.  Catalog
fetch failures do not fail the probe: `fetchProducts` absorbs them and
returns `null`, so whenever the clear succeeds the run issues both fetches
and ends in done with the completion message. -/
theorem c1_failed_iff_clear_failed (o : ProbeOracle) (s : AppState) :
    ((testRedisCache o s).finalPhase = ProbePhase.failed ↔ exceptOk o.clearResult = false) ∧
    (exceptOk o.clearResult = false →
      (testRedisCache o s).state.cacheTestResults.overallMessage = "Error testing Redis cache" ∧
      (testRedisCache o s).trace.countP (fun e => isFetchReq e) = 0) ∧
    (exceptOk o.clearResult = true →
      (testRedisCache o s).finalPhase = ProbePhase.done ∧
      (testRedisCache o s).trace.countP (fun e => isFetchReq e) = 2 ∧
      (testRedisCache o s).state.cacheTestResults.overallMessage =
        "Cache test completed. Check the statuses above.") := by
  obtain ⟨cr, f1, f2⟩ := o
  cases cr <;> simp [testRedisCache, exceptOk, isFetchReq]

/-- An error whose response body lacks the `message` field. -/
def respWithoutMessage : AxiosError :=
  { message := "Request failed with status code 500",
    response := some { data := { message := none } } }

/-- C6 counterexample: a failed create whose error carries a server response
without a `message` field displays `undefined` (rendered as an empty
message), not the generic fallback the claim promises. -/
theorem c6_counterexample :
    (handleAddOrUpdateProduct (.error respWithoutMessage)
        (.ok { products := [], cacheStatus := "miss" }) initialState).1.responseMessage =
      JsStr.undef ∧
    JsStr.undef ≠ JsStr.str "Failed to perform operation" :=
  ⟨rfl, by decide⟩

/-- C6 (amended): for a failed create, update or delete, the server's
`message` field is shown verbatim when the error carries a response with
that field, and the generic fallback is shown only when there is no response
at all; when a response is present but has no `message` field, the displayed
value is `undefined`, not the fallback. -/
theorem c6_error_message_display (s : AppState) (msg m : String)
    (fr : Except AxiosError FetchResp) (id : Nat) :
    (handleAddOrUpdateProduct (.error { message := msg, response := none })
        fr s).1.responseMessage = JsStr.str "Failed to perform operation" ∧
    (handleAddOrUpdateProduct
        (.error { message := msg, response := some { data := { message := some m } } })
        fr s).1.responseMessage = JsStr.str m ∧
    (handleAddOrUpdateProduct
        (.error { message := msg, response := some { data := { message := none } } })
        fr s).1.responseMessage = JsStr.undef ∧
    (handleDeleteProduct id (.error { message := msg, response := none })
        fr s).1.responseMessage = JsStr.str "Failed to delete product" ∧
    (handleDeleteProduct id
        (.error { message := msg, response := some { data := { message := some m } } })
        fr s).1.responseMessage = JsStr.str m ∧
    (handleDeleteProduct id
        (.error { message := msg, response := some { data := { message := none } } })
        fr s).1.responseMessage = JsStr.undef := by
  simp [handleAddOrUpdateProduct, handleDeleteProduct, errResponseMessage]

/-- The component is interactive exactly when it is neither loading nor in
the error state. -/
theorem render_interactive_iff (s : AppState) :
    isInteractive (render s) = true ↔ (s.loading = false ∧ s.error = none) := by
  rcases s with ⟨ps, l, er, n, pr, sel, rm, qm, ct⟩
  cases l <;> cases er <;> simp [render, isInteractive]

/-- An app state after a successful initial load: not loading, no error. -/
def interactiveState : AppState := { initialState with loading := false }

/-- A transport failure carrying no server response. -/
def netErr : AxiosError := { message := "Network Error", response := none }

/-- C2 counterexample: from an interactive state, one failed catalog fetch
sets the error state and the component no longer renders the interactive UI,
only the error text. -/
theorem c2_counterexample :
    isInteractive (render interactiveState) = true ∧
    isInteractive (render (fetchProducts (.error netErr) interactiveState).1) = false ∧
    (fetchProducts (.error netErr) interactiveState).1.error =
      some "Error fetching products: Network Error. Please try again later." :=
  ⟨rfl, rfl, rfl⟩

/-- C2 (amended): a failed create or update, delete, queue fetch, local
queue clear, standalone cache clear, or probe cache-clear step leaves the UI
interactive (the last status message stays displayed until a later operation
replaces it).  A failed catalog fetch, however, is fatal to interactivity:
it sets the error state, the component then renders only the error text, and
no operation ever clears a set error state. -/
theorem c2_nonfatal_except_catalog_fetch :
    (∀ s e fr, isInteractive (render s) = true →
      isInteractive (render (handleAddOrUpdateProduct (.error e) fr s).1) = true) ∧
    (∀ s id e fr, isInteractive (render s) = true →
      isInteractive (render (handleDeleteProduct id (.error e) fr s).1) = true) ∧
    (∀ s e, isInteractive (render s) = true →
      isInteractive (render (fetchQueueMessages (.error e) s).1) = true) ∧
    (∀ s, isInteractive (render s) = true →
      isInteractive (render (clearQueueMessages s).1) = true) ∧
    (∀ s e, isInteractive (render s) = true →
      isInteractive (render (clearRedisCache (.error e) s).1) = true) ∧
    (∀ s e f1 f2, isInteractive (render s) = true →
      isInteractive (render (testRedisCache
        { clearResult := .error e, firstFetch := f1, secondFetch := f2 } s).state) = true) ∧
    (∀ s e, isInteractive (render (fetchProducts (.error e) s).1) = false) ∧
    (∀ s res, s.error.isSome = true → ((fetchProducts res s).1.error).isSome = true) ∧
    (∀ s res fr, s.error.isSome = true →
      ((handleAddOrUpdateProduct res fr s).1.error).isSome = true) ∧
    (∀ s id res fr, s.error.isSome = true →
      ((handleDeleteProduct id res fr s).1.error).isSome = true) ∧
    (∀ s res, s.error.isSome = true → ((fetchQueueMessages res s).1.error).isSome = true) ∧
    (∀ s, s.error.isSome = true → ((clearQueueMessages s).1.error).isSome = true) ∧
    (∀ s res, s.error.isSome = true → ((clearRedisCache res s).1.error).isSome = true) ∧
    (∀ o s, s.error.isSome = true → ((testRedisCache o s).state.error).isSome = true) := by
  refine ⟨?_, ?_, ?_, ?_, ?_, ?_, ?_, ?_, ?_, ?_, ?_, ?_, ?_, ?_⟩
  · intro s e fr h
    rw [render_interactive_iff] at h ⊢
    exact ⟨by simp [handleAddOrUpdateProduct, h.1], by simp [handleAddOrUpdateProduct, h.2]⟩
  · intro s id e fr h
    rw [render_interactive_iff] at h ⊢
    exact ⟨by simp [handleDeleteProduct, h.1], by simp [handleDeleteProduct, h.2]⟩
  · intro s e h
    rw [render_interactive_iff] at h ⊢
    exact ⟨by simp [fetchQueueMessages, h.1], by simp [fetchQueueMessages, h.2]⟩
  · intro s h
    rw [render_interactive_iff] at h ⊢
    exact ⟨by simp [clearQueueMessages, h.1], by simp [clearQueueMessages, h.2]⟩
  · intro s e h
    rw [render_interactive_iff] at h ⊢
    exact ⟨by simp [clearRedisCache, h.1], by simp [clearRedisCache, h.2]⟩
  · intro s e f1 f2 h
    rw [render_interactive_iff] at h ⊢
    exact ⟨by simp [testRedisCache, h.1], by simp [testRedisCache, h.2]⟩
  · intro s e
    simp [fetchProducts, render, isInteractive]
  · intro s res h
    cases res <;> simp_all [fetchProducts]
  · intro s res fr h
    cases res <;> cases fr <;> simp_all [handleAddOrUpdateProduct, fetchProducts]
  · intro s id res fr h
    cases res <;> cases fr <;> simp_all [handleDeleteProduct, fetchProducts]
  · intro s res h
    cases res <;> simp_all [fetchQueueMessages]
  · intro s h
    simp_all [clearQueueMessages]
  · intro s res h
    cases res <;> simp_all [clearRedisCache]
  · intro o s h
    obtain ⟨cr, f1, f2⟩ := o
    cases cr <;> cases f1 <;> cases f2 <;>
      simp_all [testRedisCache, fetchProducts]
